import Mathlib

/-!
Shallow embedding of the Weather-App backend (Python) core logic, and proofs
of the frozen specification claims against it.

Conventions of the embedding:
* Python floats are modelled as `ℚ` (the claims only involve exact decimal
  constants and field-by-field data flow, no float-specific rounding).
* Python datetimes are modelled as epoch seconds (`ℤ`, or `ℕ` for the cache
  clock); `datetime.fromtimestamp(x, tz=utc)` is the identity on epoch seconds.
* Python `dict.get(k, d)` on optional JSON fields is `Option.getD`.
* Stateful code (the module-level response cache, the SQL stores) is modelled
  by explicit state passing; upstream HTTP is an oracle function passed as an
  argument, plus an HTTP-call counter in the state.
* Fallible code returns `Except`.
-/

namespace WeatherApp

/- ===================================================================
   Input classifier, from src/backend/app/api/search_location.py
   (`detect_input_type`, lines 104-112).  The two regexes
   `^-?\d+(\.\d+)?\s*,\s*-?\d+(\.\d+)?$` and `^\d{5}(-\d{4})?$` are
   transcribed as deterministic character-list matchers; the token
   classes (digits, dot, whitespace, comma, minus) are disjoint, so
   greedy matching recognises exactly the regex language.
   =================================================================== -/

/-- Python `\s` / `str.strip()` whitespace (ASCII range). -/
def isSpace (c : Char) : Bool :=
  c = ' ' || c = '\t' || c = '\n' || c = '\r' || c = '\x0b' || c = '\x0c'

/-- `str.strip()`. -/
def strip (cs : List Char) : List Char :=
  ((cs.dropWhile isSpace).reverse.dropWhile isSpace).reverse

/-- Matcher for `\d+(\.\d+)?`: consumes the number, returns the rest. -/
def matchNum (cs : List Char) : Option (List Char) :=
  if (cs.takeWhile Char.isDigit).isEmpty then none
  else
    match cs.dropWhile Char.isDigit with
    | [] => some []
    | c :: r2 =>
      if c = '.' then
        if (r2.takeWhile Char.isDigit).isEmpty then none
        else some (r2.dropWhile Char.isDigit)
      else some (c :: r2)

/-- Matcher for `-?\d+(\.\d+)?`. -/
def matchSignedNum : List Char → Option (List Char)
  | [] => none
  | c :: rest => if c = '-' then matchNum rest else matchNum (c :: rest)

/-- Anchored matcher for `^-?\d+(\.\d+)?\s*,\s*-?\d+(\.\d+)?$`. -/
def matchesCoord (cs : List Char) : Bool :=
  match matchSignedNum cs with
  | none => false
  | some r1 =>
    match r1.dropWhile isSpace with
    | [] => false
    | c :: r2 =>
      if c = ',' then
        match matchSignedNum (r2.dropWhile isSpace) with
        | none => false
        | some r4 => r4.isEmpty
      else false

/-- Anchored matcher for `^\d{5}(-\d{4})?$`. -/
def matchesZip (cs : List Char) : Bool :=
  decide ((cs.takeWhile Char.isDigit).length = 5) &&
    (match cs.dropWhile Char.isDigit with
     | [] => true
     | c :: r2 =>
       decide (c = '-') && decide ((r2.takeWhile Char.isDigit).length = 4) &&
         (r2.dropWhile Char.isDigit).isEmpty)

/-- The three classification outcomes of `detect_input_type`. -/
inductive InputType
  | latlon
  | zip
  | city
deriving DecidableEq

/-- `detect_input_type` (search_location.py lines 104-112): first regex wins,
then the zip regex, else city. -/
def detect_input_type (s : List Char) : InputType :=
  if matchesCoord (strip s) then .latlon
  else if matchesZip (strip s) then .zip
  else .city

/- ===================================================================
   Weather service, from src/backend/app/services/weather_service.py.
   Upstream payloads are modelled structurally: each `.get` with a
   default becomes `Option.getD`; `(data.get("weather") or [{}])[0]`
   becomes `firstWeatherItem`.  The module-level `_cache` dict is a
   key-value list threaded through the fetchers together with a counter
   of upstream HTTP calls; the Python module shares one dict for both
   fetchers, with keys disjoint by their "current:"/"forecast:" tag, so
   the embedding gives each fetcher its own typed store.  The upstream
   HTTP GET is an oracle argument returning the decoded JSON body
   (`none` models a falsy body, the `if not data: return None` branch);
   transport/status errors raised by `fetch_url` propagate outside the
   functions modelled here.  The `rapidfuzz` scorer used by
   `normalize_city_name` is third-party code, modelled as a function
   argument `scorer`. -/

/-- A value in the upstream query-parameter dict (string or float). -/
inductive PVal
  | str (s : String)
  | num (q : ℚ)
deriving DecidableEq

/-- Rendering of a parameter value into the cache-key string. -/
def pvalStr : PVal → String
  | .str s => s
  | .num q => toString q

/-- Lexicographic comparison on code points (Python string `<=`),
kernel-computable. -/
def charListLe : List Char → List Char → Bool
  | [], _ => true
  | _ :: _, [] => false
  | a :: as, b :: bs => if a = b then charListLe as bs else decide (a < b)

/-- Ordering of `sorted(kwargs.items())` (by parameter name). -/
def paramKeyLe (a b : String × PVal) : Bool :=
  charListLe a.1.toList b.1.toList

/-- `_build_cache_key` (weather_service.py lines 112-113): tag plus the
sorted `k=v` pairs joined with ":". -/
def build_cache_key (tag : String) (kwargs : List (String × PVal)) : String :=
  tag ++ ":" ++ String.intercalate ":"
    ((kwargs.insertionSort (fun a b => paramKeyLe a b = true)).map
      (fun kv => kv.1 ++ "=" ++ pvalStr kv.2))

/-- One `_cache` entry: `{"timestamp": ..., "data": ...}`. -/
structure CacheEntry (α : Type) where
  timestamp : ℕ
  data : α
deriving DecidableEq

/-- The mutable state visible to a fetcher: the cache plus the number of
upstream HTTP calls performed so far. -/
structure FetchState (α : Type) where
  cache : List (String × CacheEntry α)
  httpCalls : ℕ
deriving DecidableEq

/-- `_cache.get(key)`. -/
def cacheLookup {α : Type} (cache : List (String × CacheEntry α)) (key : String) :
    Option (CacheEntry α) :=
  (cache.find? (fun kv => kv.1 == key)).map (fun kv => kv.2)

/-- `_cache[key] = entry` (newest binding shadows any older one). -/
def cacheInsert {α : Type} (cache : List (String × CacheEntry α)) (key : String)
    (e : CacheEntry α) : List (String × CacheEntry α) :=
  (key, e) :: cache

/-- weather_service.py line 66. -/
def KNOWN_CITIES : List String := ["Seoul", "Busan", "New York", "Tokyo"]

/-- `rapidfuzz.process.extractOne`: best-scoring choice, earliest wins ties. -/
def extractOne (scorer : String → String → ℚ) (query : String) :
    List String → Option (String × ℚ)
  | [] => none
  | c :: cs =>
    some (cs.foldl
      (fun best ch => if scorer query ch > best.2 then (ch, scorer query ch) else best)
      (c, scorer query c))

/-- `normalize_city_name` (weather_service.py lines 69-71). -/
def normalize_city_name (scorer : String → String → ℚ) (query : String) : String :=
  match extractOne scorer query KNOWN_CITIES with
  | none => query
  | some (m, score) => if score > 80 then m else query

/-- Python truthiness of an optional string argument (`if city:`). -/
def pyTruthyStr : Option String → Bool
  | none => false
  | some s => !(s == "")

/-- `c_to_f` (weather_service.py lines 89-92). -/
def c_to_f : Option ℚ → Option ℚ
  | none => none
  | some c => some (c * 9 / 5 + 32)

/-- `x or 0.0` applied to an optional float (falsy zero also maps to the
default, which coincides with it). -/
def pyOrZero : Option ℚ → ℚ
  | none => 0
  | some v => if v = 0 then 0 else v

/-- `icon_url` (weather_service.py lines 85-86). -/
def icon_url (code : String) : String :=
  "/static/icons/" ++ code ++ ".svg"

/-- The `main` sub-object of an upstream payload. -/
structure MainBlock where
  temp : Option ℚ
  humidity : Option ℚ
  pressure : Option ℚ
deriving DecidableEq

/-- The `wind` sub-object. -/
structure WindBlock where
  speed : Option ℚ
  deg : Option ℚ
  gust : Option ℚ
deriving DecidableEq

/-- The `sys` sub-object (epoch seconds). -/
structure SysBlock where
  sunrise : Option ℤ
  sunset : Option ℤ
deriving DecidableEq

/-- One element of the `weather` array. -/
structure WeatherItemPayload where
  main : Option String
  description : Option String
  icon : Option String
  id : Option ℤ
deriving DecidableEq

/-- The `{}` element used when the `weather` array is absent or empty. -/
def emptyWeatherItem : WeatherItemPayload := ⟨none, none, none, none⟩

/-- `(data.get("weather") or [{}])[0]`. -/
def firstWeatherItem : Option (List WeatherItemPayload) → WeatherItemPayload
  | some (x :: _) => x
  | _ => emptyWeatherItem

/-- Decoded body of the current-weather endpoint.  `rain`/`snow` are present
in real payloads exactly when precipitation occurred; `fetch_current_weather`
never reads them. -/
structure CurrentPayload where
  main : MainBlock
  wind : WindBlock
  sys : SysBlock
  weather : Option (List WeatherItemPayload)
  visibility : Option ℚ
  dt : Option ℤ
  rain : Option ℚ
  snow : Option ℚ
deriving DecidableEq

/-- The `WeatherCurrent` pydantic schema (schemas/weather.py lines 37-56),
datetimes as epoch seconds. -/
structure WeatherCurrent where
  temp_c : ℚ
  temp_f : ℚ
  humidity : ℚ
  wind_speed : ℚ
  wind_deg : Option ℚ
  wind_gust : Option ℚ
  condition : String
  condition_desc : String
  icon : String
  icon_url : String
  sunrise : Option ℤ
  sunset : Option ℤ
  pressure : Option ℚ
  visibility : Option ℚ
  precipitation : Option ℚ
  precipitation_type : Option String
  uvi : Option ℚ
  weather_code : Option ℤ
  updated_at : ℤ
deriving DecidableEq

/-- The `WeatherCurrent(...)` construction of `fetch_current_weather`
(weather_service.py lines 138-174). -/
def normalizeCurrent (data : CurrentPayload) : WeatherCurrent :=
  let main := data.main
  let wind := data.wind
  let sys := data.sys
  let weather := firstWeatherItem data.weather
  { temp_c := main.temp.getD 0
    temp_f := pyOrZero (c_to_f main.temp)
    humidity := main.humidity.getD 0
    wind_speed := wind.speed.getD 0
    wind_deg := wind.deg
    wind_gust := wind.gust
    condition := weather.main.getD "Unknown"
    condition_desc := weather.description.getD ""
    icon := weather.icon.getD ""
    icon_url := icon_url (weather.icon.getD "")
    sunrise := sys.sunrise
    sunset := sys.sunset
    pressure := main.pressure
    visibility := data.visibility
    precipitation := none
    precipitation_type := none
    uvi := none
    weather_code := weather.id
    updated_at := data.dt.getD 0 }

/-- The only exception raised directly by the fetchers before any upstream
activity (`ValueError`, the InvalidInput case). -/
inductive FetchErr
  | invalidInput
deriving DecidableEq

/-- Query parameters built by `fetch_current_weather` (lines 122-127): the
city branch normalizes the city through the fuzzy matcher. -/
def fetch_current_params (scorer : String → String → ℚ) (apiKey : String)
    (city : Option String) (lat lon : Option ℚ) : List (String × PVal) :=
  [("appid", .str apiKey), ("units", .str "metric")] ++
    (if pyTruthyStr city then
      [("q", .str (normalize_city_name scorer (city.getD "")))]
    else
      [("lat", .num (lat.getD 0)), ("lon", .num (lon.getD 0))])

/-- The cache-miss tail of `fetch_current_weather` (lines 134-176): one
upstream call; a falsy body returns `none` and caches nothing, otherwise the
normalized record is cached under `key` with the current clock. -/
def fetch_current_miss (up : List (String × PVal) → Option CurrentPayload)
    (params : List (String × PVal)) (key : String) (now : ℕ)
    (st : FetchState WeatherCurrent) :
    Except FetchErr (Option WeatherCurrent) × FetchState WeatherCurrent :=
  match up params with
  | none => (.ok none, { cache := st.cache, httpCalls := st.httpCalls + 1 })
  | some d =>
    let w := normalizeCurrent d
    (.ok (some w),
     { cache := cacheInsert st.cache key ⟨now, w⟩, httpCalls := st.httpCalls + 1 })

/-- `fetch_current_weather` (weather_service.py lines 116-176).  TTL 10
minutes (600 seconds); `now` is `datetime.utcnow()` in epoch seconds. -/
def fetch_current_weather (scorer : String → String → ℚ)
    (up : List (String × PVal) → Option CurrentPayload)
    (apiKey : String) (now : ℕ) (city : Option String) (lat lon : Option ℚ)
    (st : FetchState WeatherCurrent) :
    Except FetchErr (Option WeatherCurrent) × FetchState WeatherCurrent :=
  if pyTruthyStr city || (lat.isSome && lon.isSome) then
    let params := fetch_current_params scorer apiKey city lat lon
    let key := build_cache_key "current" params
    match cacheLookup st.cache key with
    | some e =>
      if now - e.timestamp < 600 then (.ok (some e.data), st)
      else fetch_current_miss up params key now st
    | none => fetch_current_miss up params key now st
  else (.error .invalidInput, st)

/-- The `rain` sub-object of a forecast list entry (`{"3h": ...}`). -/
structure RainBlock where
  h3 : Option ℚ
deriving DecidableEq

/-- One entry of the forecast `list` array.  `dt` is required: the code
applies `datetime.fromtimestamp` to it unconditionally. -/
structure ForecastItemPayload where
  dt : ℤ
  main : MainBlock
  weather : Option (List WeatherItemPayload)
  rain : Option RainBlock
  wind : WindBlock
  visibility : Option ℚ
deriving DecidableEq

/-- The `coord` sub-object of the forecast `city` object. -/
structure CoordBlock where
  lat : Option ℚ
  lon : Option ℚ
deriving DecidableEq

/-- The `city` sub-object of a forecast payload. -/
structure CityBlock where
  name : Option String
  country : Option String
  coord : CoordBlock
deriving DecidableEq

/-- Decoded body of the forecast endpoint. -/
structure ForecastPayload where
  city : CityBlock
  list : List ForecastItemPayload
deriving DecidableEq

/-- The `ForecastItem` pydantic schema (schemas/weather.py lines 77-96);
`forecast_date` is the UTC day number, `forecast_hour` the UTC hour. -/
structure ForecastItem where
  forecast_date : ℤ
  forecast_hour : Option ℤ
  temp_c : ℚ
  temp_f : ℚ
  condition : String
  condition_desc : String
  icon : String
  icon_url : Option String
  precipitation : Option ℚ
  precipitation_type : Option String
  uvi : Option ℚ
  pressure : Option ℚ
  wind_speed : Option ℚ
  wind_deg : Option ℚ
  wind_gust : Option ℚ
  humidity : Option ℚ
  visibility : Option ℚ
  weather_code : Option ℤ
  updated_at : ℤ
deriving DecidableEq

/-- The `WeatherBase` pydantic schema (schemas/weather.py lines 11-15). -/
structure WeatherBase where
  city : Option String
  country : Option String
  latitude : Option ℚ
  longitude : Option ℚ
deriving DecidableEq

/-- The `ForecastResponse` pydantic schema (schemas/weather.py lines 99-101). -/
structure ForecastResponse where
  location : WeatherBase
  forecast : List ForecastItem
deriving DecidableEq

/-- The `ForecastItem(...)` construction inside the loop of `fetch_forecast`
(weather_service.py lines 205-231). -/
def normalizeForecastItem (item : ForecastItemPayload) : ForecastItem :=
  let dt := item.dt
  let main := item.main
  let weather := firstWeatherItem item.weather
  { forecast_date := dt.fdiv 86400
    forecast_hour := some ((dt.fdiv 3600).emod 24)
    temp_c := main.temp.getD 0
    temp_f := pyOrZero (c_to_f main.temp)
    condition := weather.main.getD "Unknown"
    condition_desc := weather.description.getD ""
    icon := weather.icon.getD ""
    icon_url := some (icon_url (weather.icon.getD ""))
    precipitation := some (match item.rain with
      | some rb => rb.h3.getD 0
      | none => 0)
    precipitation_type := match item.rain with
      | some _ => some "rain"
      | none => none
    updated_at := dt
    uvi := none
    pressure := main.pressure
    wind_speed := item.wind.speed
    wind_deg := item.wind.deg
    wind_gust := item.wind.gust
    humidity := main.humidity
    visibility := item.visibility
    weather_code := weather.id }

/-- The `ForecastResponse(...)` construction of `fetch_forecast`
(weather_service.py lines 233-241). -/
def normalizeForecast (data : ForecastPayload) : ForecastResponse :=
  { location := ⟨data.city.name, data.city.country, data.city.coord.lat,
                 data.city.coord.lon⟩
    forecast := data.list.map normalizeForecastItem }

/-- Query parameters built by `fetch_forecast` (lines 185-190): the city is
passed through unchanged, with no fuzzy normalization. -/
def fetch_forecast_params (apiKey : String) (city : Option String)
    (lat lon : Option ℚ) : List (String × PVal) :=
  [("appid", .str apiKey), ("units", .str "metric")] ++
    (if pyTruthyStr city then
      [("q", .str (city.getD ""))]
    else
      [("lat", .num (lat.getD 0)), ("lon", .num (lon.getD 0))])

/-- The cache-miss tail of `fetch_forecast` (lines 197-244). -/
def fetch_forecast_miss (up : List (String × PVal) → Option ForecastPayload)
    (params : List (String × PVal)) (key : String) (now : ℕ)
    (st : FetchState ForecastResponse) :
    Except FetchErr (Option ForecastResponse) × FetchState ForecastResponse :=
  match up params with
  | none => (.ok none, { cache := st.cache, httpCalls := st.httpCalls + 1 })
  | some d =>
    let r := normalizeForecast d
    (.ok (some r),
     { cache := cacheInsert st.cache key ⟨now, r⟩, httpCalls := st.httpCalls + 1 })

/-- `fetch_forecast` (weather_service.py lines 179-244).  TTL 30 minutes
(1800 seconds). -/
def fetch_forecast (up : List (String × PVal) → Option ForecastPayload)
    (apiKey : String) (now : ℕ) (city : Option String) (lat lon : Option ℚ)
    (st : FetchState ForecastResponse) :
    Except FetchErr (Option ForecastResponse) × FetchState ForecastResponse :=
  if pyTruthyStr city || (lat.isSome && lon.isSome) then
    let params := fetch_forecast_params apiKey city lat lon
    let key := build_cache_key "forecast" params
    match cacheLookup st.cache key with
    | some e =>
      if now - e.timestamp < 1800 then (.ok (some e.data), st)
      else fetch_forecast_miss up params key now st
    | none => fetch_forecast_miss up params key now st
  else (.error .invalidInput, st)

/-- A cache has no entry for `key` that would still be fresh at time `t`
under TTL `ttl`. -/
def noFreshEntry {α : Type} (cache : List (String × CacheEntry α)) (key : String)
    (t ttl : ℕ) : Prop :=
  ∀ e, cacheLookup cache key = some e → ¬ (t - e.timestamp < ttl)

/- ===================================================================
   Geocoder, from src/backend/app/api/search_location.py
   (`geocode_location`, lines 73-101, and the exception translation of
   the `/weather` route, lines 250-258).  `requests.get` either fails
   at transport level (`RequestException`) or yields a response with a
   status code and decoded JSON body; `raise_for_status` raises
   `HTTPError` (a `RequestException`) for 4xx/5xx codes.  Both kinds of
   `RequestException` are converted to `RuntimeError` — the
   UpstreamUnavailable case — while an empty result raises `ValueError`
   — the NotFound case. -/

/-- One element of the geocoding response array. -/
structure GeoCandidate where
  lat : ℚ
  lon : ℚ
  name : Option String
  state : Option String
  country : Option String
  extId : Option ℤ
deriving DecidableEq

/-- Outcome of one upstream HTTP GET as seen by `requests`. -/
inductive HttpOutcome (β : Type)
  | response (status : ℕ) (body : β)
  | transportFailure
deriving DecidableEq

/-- The two failure modes of `geocode_location`: `ValueError` ("Location not
found", the NotFound case) and `RuntimeError` ("Geocoding API request
failed", the UpstreamUnavailable case). -/
inductive GeoError
  | notFound
  | upstreamUnavailable
deriving DecidableEq

/-- `geocode_location` (search_location.py lines 89-101) over the outcome of
its single upstream GET. -/
def geocode_location (resp : HttpOutcome (List GeoCandidate)) :
    Except GeoError (ℚ × ℚ) :=
  match resp with
  | .transportFailure => .error .upstreamUnavailable
  | .response status body =>
    if 400 ≤ status then .error .upstreamUnavailable
    else
      match body with
      | [] => .error .notFound
      | c :: _ => .ok (c.lat, c.lon)

/-- HTTP status assigned to each geocoder error by the `/weather` route
(search_location.py lines 253-258): `ValueError` → 400, `RuntimeError`
→ 502. -/
def geoErrorStatus : GeoError → ℕ
  | .notFound => 400
  | .upstreamUnavailable => 502

/- ===================================================================
   Location store, from the save loop of `search_location`
   (search_location.py lines 316-342) and the `SearchLocation` model
   (models/models.py lines 21-38): query by exact (latitude, longitude)
   match, insert a new row when absent; the id is generated by the
   store. -/

/-- A `search_locations` row. -/
structure LocRow where
  id : ℕ
  city : String
  state : Option String
  country : String
  postal_code : Option String
  latitude : ℚ
  longitude : ℚ
  external_id : Option String
deriving DecidableEq

/-- The location table plus its id sequence. -/
structure LocDB where
  rows : List LocRow
  nextId : ℕ
deriving DecidableEq

/-- One geocoding result as consumed by the save loop. -/
structure GeoResult where
  name : String
  state : Option String
  country : String
  lat : ℚ
  lon : ℚ
  external_id : Option String
deriving DecidableEq

/-- The duplicate-check predicate: exact coordinate match. -/
def locMatches (lat lon : ℚ) (r : LocRow) : Bool :=
  decide (r.latitude = lat) && decide (r.longitude = lon)

/-- The find-or-create step of the save loop: return the first row with the
same coordinates, else insert a fresh row with a generated id. -/
def find_or_create (db : LocDB) (g : GeoResult) : LocRow × LocDB :=
  match db.rows.find? (locMatches g.lat g.lon) with
  | some r => (r, db)
  | none =>
    let row : LocRow :=
      { id := db.nextId, city := g.name, state := g.state, country := g.country,
        postal_code := none, latitude := g.lat, longitude := g.lon,
        external_id := g.external_id }
    (row, { rows := db.rows ++ [row], nextId := db.nextId + 1 })

/- ===================================================================
   Weather record store, from src/backend/app/crud/weather.py and the
   `POST /record` endpoint of src/backend/app/api/weather_history.py
   (lines 178-223), which performs the range validations before calling
   `create_weather_record`. -/

/-- The `WeatherHistoryCreate` pydantic schema (schemas/weather.py lines
109-177); datetimes as epoch seconds. -/
structure WeatherHistoryCreate where
  location_id : ℤ
  weather_date : ℤ
  temp_c : ℚ
  temp_f : ℚ
  condition : String
  humidity : Option ℚ
  wind_speed : Option ℚ
  wind_deg : Option ℚ
  wind_gust : Option ℚ
  condition_desc : Option String
  icon : Option String
  sunrise : Option ℤ
  sunset : Option ℤ
  pressure : Option ℚ
  visibility : Option ℚ
  precipitation : Option ℚ
  precipitation_type : Option String
  uvi : Option ℚ
  weather_code : Option ℤ
  api_source : Option String
  tip : Option String
deriving DecidableEq

/-- A persisted `weather_history` row: a generated id plus the created
fields (`WeatherHistory(**data.dict())`). -/
structure WeatherRow where
  id : ℕ
  fields : WeatherHistoryCreate
deriving DecidableEq

/-- The weather-history table plus its id sequence. -/
structure WeatherDB where
  rows : List WeatherRow
  nextId : ℕ
deriving DecidableEq

/-- `create_weather_record` (crud/weather.py lines 10-18): add the row,
commit, refresh (which materializes the generated id). -/
def create_weather_record (db : WeatherDB) (data : WeatherHistoryCreate) :
    WeatherRow × WeatherDB :=
  let row : WeatherRow := { id := db.nextId, fields := data }
  (row, { rows := db.rows ++ [row], nextId := db.nextId + 1 })

/-- The distinct `HTTPException(400, ...)` cases of the `POST /record`
endpoint (weather_history.py lines 196-221), all of the InvalidInput
class. -/
inductive ApiError
  | futureDateTooFar
  | invalidTemperature
  | invalidHumidity
  | invalidWindSpeed
deriving DecidableEq

/-- `data.humidity is not None and (data.humidity < 0 or data.humidity >
100)`. -/
def humidityBad : Option ℚ → Bool
  | none => false
  | some h => decide (h < 0) || decide (h > 100)

/-- `data.wind_speed is not None and data.wind_speed < 0`. -/
def windSpeedBad : Option ℚ → Bool
  | none => false
  | some w => decide (w < 0)

/-- The validation sequence of the `POST /record` endpoint
(weather_history.py lines 196-223): date window, temperature range,
humidity range, wind-speed range; only then is the record persisted.  An
error result persists nothing (the state is not returned on the error
path). -/
def create_weather_record_endpoint (now : ℤ) (db : WeatherDB)
    (data : WeatherHistoryCreate) : Except ApiError (WeatherRow × WeatherDB) :=
  if data.weather_date > now + 7 * 86400 then .error .futureDateTooFar
  else if data.temp_c < -100 ∨ data.temp_c > 100 then .error .invalidTemperature
  else if humidityBad data.humidity then .error .invalidHumidity
  else if windSpeedBad data.wind_speed then .error .invalidWindSpeed
  else .ok (create_weather_record db data)

/-- Descending order on `weather_date` (the `order_by(...desc())` of
`get_weather_by_location`). -/
def dateGE (a b : WeatherRow) : Prop :=
  b.fields.weather_date ≤ a.fields.weather_date

instance : DecidableRel dateGE := fun a b =>
  inferInstanceAs (Decidable (b.fields.weather_date ≤ a.fields.weather_date))

instance : IsTotal WeatherRow dateGE :=
  ⟨fun a b => le_total b.fields.weather_date a.fields.weather_date⟩

instance : IsTrans WeatherRow dateGE :=
  ⟨fun _ _ _ hab hbc => le_trans hbc hab⟩

/-- `get_weather_by_location` (crud/weather.py lines 28-45): filter by
location, then by the optional inclusive bounds, then sort by
`weather_date` descending. -/
def get_weather_by_location (db : WeatherDB) (locId : ℤ)
    (startDate endDate : Option ℤ) : List WeatherRow :=
  let q := db.rows.filter (fun r => decide (r.fields.location_id = locId))
  let q := match startDate with
    | some sd => q.filter (fun (r : WeatherRow) => decide (sd ≤ r.fields.weather_date))
    | none => q
  let q := match endDate with
    | some ed => q.filter (fun (r : WeatherRow) => decide (r.fields.weather_date ≤ ed))
    | none => q
  q.insertionSort dateGE

/-- The range predicate of the claim: inclusive on both bounds when
provided. -/
def inDateRange (startDate endDate : Option ℤ) (d : ℤ) : Bool :=
  (match startDate with
   | some sd => decide (sd ≤ d)
   | none => true) &&
  (match endDate with
   | some ed => decide (d ≤ ed)
   | none => true)

/-- A rational carries at most one decimal place. -/
def roundedTo1 (q : ℚ) : Prop := ∃ n : ℤ, q * 10 = (n : ℚ)

/- ===================================================================
   Concrete fixtures used by witnesses and counterexamples. -/

/-- A trivial fuzzy scorer. -/
def scorer0 : String → String → ℚ := fun _ _ => 0

/-- A fuzzy scorer giving a high score only against "Seoul" (the shape of
the real `rapidfuzz` WRatio on a near-miss such as "Seol"). -/
def scorerSeoul : String → String → ℚ :=
  fun _ choice => if choice = "Seoul" then 90 else 0

/-- A current-weather payload with every optional field absent; in
particular the rain/snow precipitation fields are absent. -/
def payload0 : CurrentPayload :=
  { main := ⟨none, none, none⟩, wind := ⟨none, none, none⟩, sys := ⟨none, none⟩,
    weather := none, visibility := none, dt := none, rain := none, snow := none }

/-- `payload0` with an upstream Celsius temperature of 20.55 (a value with
two decimal places). -/
def payload655 : CurrentPayload :=
  { payload0 with main := ⟨some 20.55, none, none⟩ }

/-- An upstream oracle that always answers `payload0`. -/
def up0 : List (String × PVal) → Option CurrentPayload := fun _ => some payload0

/-- An upstream oracle that always answers `payload655`. -/
def up655 : List (String × PVal) → Option CurrentPayload := fun _ => some payload655

/-- A forecast list entry with every optional field absent (no rain). -/
def fcItem0 : ForecastItemPayload :=
  { dt := 0, main := ⟨none, none, none⟩, weather := none, rain := none,
    wind := ⟨none, none, none⟩, visibility := none }

/-- The normalized record of `payload0`. -/
def w0 : WeatherCurrent := normalizeCurrent payload0

/-- A cache state holding a fresh "current" entry for the Seoul query of the
C2 witness (inserted at clock 5). -/
def stHit : FetchState WeatherCurrent :=
  { cache := [(build_cache_key "current"
      (fetch_current_params scorer0 "k" (some "Seoul") none none), ⟨5, w0⟩)],
    httpCalls := 3 }

/-- An empty fetch state. -/
def stEmpty : FetchState WeatherCurrent := { cache := [], httpCalls := 0 }

/-- An empty forecast fetch state. -/
def stEmptyF : FetchState ForecastResponse := { cache := [], httpCalls := 0 }

/-- A forecast payload with a single rain-free entry. -/
def fcPayload0 : ForecastPayload :=
  { city := ⟨none, none, ⟨none, none⟩⟩, list := [fcItem0] }

/-- An upstream oracle that always answers `fcPayload0`. -/
def upF0 : List (String × PVal) → Option ForecastPayload := fun _ => some fcPayload0

/-- A geocoding result for Seoul. -/
def geoSeoul : GeoResult :=
  { name := "Seoul", state := none, country := "KR", lat := 37, lon := 127,
    external_id := none }

/-- A well-formed weather-record creation request with neutral values. -/
def wrData0 : WeatherHistoryCreate :=
  { location_id := 1, weather_date := 0, temp_c := 20, temp_f := 68,
    condition := "Clear", humidity := none, wind_speed := none,
    wind_deg := none, wind_gust := none, condition_desc := none, icon := none,
    sunrise := none, sunset := none, pressure := none, visibility := none,
    precipitation := none, precipitation_type := none, uvi := none,
    weather_code := none, api_source := none, tip := none }

end WeatherApp

namespace WeatherApp

/-- A string in the zip language contains no comma after its digit prefix, so
the coordinate regex cannot match it. -/
theorem matchesZip_not_matchesCoord (cs : List Char) (h : matchesZip cs = true) :
    matchesCoord cs = false := by
  unfold matchesZip at h
  rw [Bool.and_eq_true, decide_eq_true_eq] at h
  obtain ⟨h5, hrest⟩ := h
  cases hcs : cs with
  | nil => rw [hcs] at h5; simp at h5
  | cons c cs' =>
    rw [hcs] at h5 hrest
    have hd : Char.isDigit c = true := by
      by_contra hnd
      rw [List.takeWhile_cons] at h5
      simp [hnd] at h5
    have hdrop : (c :: cs').dropWhile Char.isDigit = cs'.dropWhile Char.isDigit := by
      rw [List.dropWhile_cons, if_pos hd]
    have hcne : c ≠ '-' := by
      intro he; rw [he] at hd; exact absurd hd (by decide)
    have htake : ¬ ((c :: cs').takeWhile Char.isDigit).isEmpty = true := by
      rw [List.takeWhile_cons, if_pos hd]; simp
    unfold matchesCoord matchSignedNum matchNum
    rw [hdrop] at hrest
    cases hr : cs'.dropWhile Char.isDigit with
    | nil =>
      simp [hcne, htake, hdrop, hr]
    | cons d r2 =>
      rw [hr] at hrest
      rw [Bool.and_eq_true, Bool.and_eq_true, decide_eq_true_eq] at hrest
      have hdm : d = '-' := hrest.1.1
      subst hdm
      simp [hcne, htake, hdrop, hr, isSpace,
        (by decide : ¬ ('-' : Char) = '.'), (by decide : ¬ ('-' : Char) = ',')]

/-- Claim C1: the input classifier is total and deterministic.  Every input
whose trimmed form matches the coordinate regex classifies as `latlon`
(Coordinates), every input whose trimmed form matches the zip regex classifies
as `zip` (PostalCode), and every other input classifies as `city` (PlaceName);
`detect_input_type` is a pure total function, so exactly one variant is
returned and there are no side effects. -/
theorem C1_input_classifier (s : List Char) :
    (matchesCoord (strip s) = true → detect_input_type s = .latlon) ∧
    (matchesZip (strip s) = true → detect_input_type s = .zip) ∧
    (matchesCoord (strip s) = false → matchesZip (strip s) = false →
      detect_input_type s = .city) := by
  refine ⟨fun h => ?_, fun h => ?_, fun h1 h2 => ?_⟩
  · unfold detect_input_type
    rw [if_pos h]
  · unfold detect_input_type
    rw [if_neg (by simp [matchesZip_not_matchesCoord _ h]), if_pos h]
  · unfold detect_input_type
    rw [if_neg (by simp [h1]), if_neg (by simp [h2])]

/-- Witness for C1 at the three concrete scenario inputs of the spec. -/
theorem C1_input_classifier_witness :
    matchesCoord (strip ("37.5665,126.9780".toList)) = true ∧
    detect_input_type ("37.5665,126.9780".toList) = .latlon ∧
    matchesZip (strip ("12345".toList)) = true ∧
    detect_input_type ("12345".toList) = .zip ∧
    detect_input_type ("Seoul".toList) = .city :=
  ⟨by decide,
   (C1_input_classifier _).1 (by decide),
   by decide,
   (C1_input_classifier _).2.1 (by decide),
   (C1_input_classifier _).2.2 (by decide) (by decide)⟩

/-- Looking up the key just inserted yields the inserted entry. -/
theorem cacheLookup_insert_self {α : Type} (c : List (String × CacheEntry α))
    (k : String) (e : CacheEntry α) :
    cacheLookup (cacheInsert c k e) k = some e := by
  unfold cacheLookup cacheInsert
  rw [List.find?_cons_of_pos _ (by simp)]
  rfl

/-- A fresh cache hit short-circuits `fetch_current_weather`: the cached
record is returned and the state (hence the HTTP-call counter) is
untouched. -/
theorem fetch_current_weather_hit (scorer : String → String → ℚ)
    (up : List (String × PVal) → Option CurrentPayload) (apiKey : String)
    (now : ℕ) (city : Option String) (lat lon : Option ℚ)
    (st : FetchState WeatherCurrent) (e : CacheEntry WeatherCurrent)
    (hargs : (pyTruthyStr city || (lat.isSome && lon.isSome)) = true)
    (hhit : cacheLookup st.cache
      (build_cache_key "current" (fetch_current_params scorer apiKey city lat lon))
      = some e)
    (hfresh : now - e.timestamp < 600) :
    fetch_current_weather scorer up apiKey now city lat lon st
      = (.ok (some e.data), st) := by
  unfold fetch_current_weather
  simp [hargs, hhit, hfresh]

/-- Without a fresh cache entry, `fetch_current_weather` runs its miss
tail. -/
theorem fetch_current_weather_miss (scorer : String → String → ℚ)
    (up : List (String × PVal) → Option CurrentPayload) (apiKey : String)
    (now : ℕ) (city : Option String) (lat lon : Option ℚ)
    (st : FetchState WeatherCurrent)
    (hargs : (pyTruthyStr city || (lat.isSome && lon.isSome)) = true)
    (hnf : noFreshEntry st.cache
      (build_cache_key "current" (fetch_current_params scorer apiKey city lat lon))
      now 600) :
    fetch_current_weather scorer up apiKey now city lat lon st
      = fetch_current_miss up (fetch_current_params scorer apiKey city lat lon)
          (build_cache_key "current" (fetch_current_params scorer apiKey city lat lon))
          now st := by
  unfold fetch_current_weather
  cases hl : cacheLookup st.cache
      (build_cache_key "current" (fetch_current_params scorer apiKey city lat lon)) with
  | none => simp [hargs, hl]
  | some e => simp [hargs, hl, hnf e hl]

/-- A fresh cache hit short-circuits `fetch_forecast` likewise (TTL 1800). -/
theorem fetch_forecast_hit
    (up : List (String × PVal) → Option ForecastPayload) (apiKey : String)
    (now : ℕ) (city : Option String) (lat lon : Option ℚ)
    (st : FetchState ForecastResponse) (e : CacheEntry ForecastResponse)
    (hargs : (pyTruthyStr city || (lat.isSome && lon.isSome)) = true)
    (hhit : cacheLookup st.cache
      (build_cache_key "forecast" (fetch_forecast_params apiKey city lat lon))
      = some e)
    (hfresh : now - e.timestamp < 1800) :
    fetch_forecast up apiKey now city lat lon st = (.ok (some e.data), st) := by
  unfold fetch_forecast
  simp [hargs, hhit, hfresh]

/-- Without a fresh cache entry, `fetch_forecast` runs its miss tail. -/
theorem fetch_forecast_miss_eq
    (up : List (String × PVal) → Option ForecastPayload) (apiKey : String)
    (now : ℕ) (city : Option String) (lat lon : Option ℚ)
    (st : FetchState ForecastResponse)
    (hargs : (pyTruthyStr city || (lat.isSome && lon.isSome)) = true)
    (hnf : noFreshEntry st.cache
      (build_cache_key "forecast" (fetch_forecast_params apiKey city lat lon))
      now 1800) :
    fetch_forecast up apiKey now city lat lon st
      = fetch_forecast_miss up (fetch_forecast_params apiKey city lat lon)
          (build_cache_key "forecast" (fetch_forecast_params apiKey city lat lon))
          now st := by
  unfold fetch_forecast
  cases hl : cacheLookup st.cache
      (build_cache_key "forecast" (fetch_forecast_params apiKey city lat lon)) with
  | none => simp [hargs, hl]
  | some e => simp [hargs, hl, hnf e hl]

/-- Claim C2: a cache entry for the normalized parameters of a
`fetch_current` request younger than 10 minutes is returned as-is with no
upstream HTTP call (the state, including the call counter, is unchanged);
consequently two calls with identical normalized parameters, the first
finding no fresh entry and the second within the TTL window of the first,
perform exactly one upstream HTTP call in total (the counter rises by one
across both calls, and the second call returns the same value as the
first).  The same holds for `fetch_forecast` with its 30-minute TTL. -/
theorem C2_cache_ttl_single_upstream_call :
    (∀ (scorer : String → String → ℚ)
       (up : List (String × PVal) → Option CurrentPayload)
       (apiKey : String) (now : ℕ) (city : Option String) (lat lon : Option ℚ)
       (st : FetchState WeatherCurrent) (e : CacheEntry WeatherCurrent),
      (pyTruthyStr city || (lat.isSome && lon.isSome)) = true →
      cacheLookup st.cache
        (build_cache_key "current" (fetch_current_params scorer apiKey city lat lon))
        = some e →
      now - e.timestamp < 600 →
      fetch_current_weather scorer up apiKey now city lat lon st
        = (.ok (some e.data), st)) ∧
    (∀ (scorer : String → String → ℚ)
       (up : List (String × PVal) → Option CurrentPayload)
       (apiKey : String) (t1 t2 : ℕ) (city : Option String) (lat lon : Option ℚ)
       (st : FetchState WeatherCurrent) (d : CurrentPayload),
      (pyTruthyStr city || (lat.isSome && lon.isSome)) = true →
      noFreshEntry st.cache
        (build_cache_key "current" (fetch_current_params scorer apiKey city lat lon))
        t1 600 →
      up (fetch_current_params scorer apiKey city lat lon) = some d →
      t2 - t1 < 600 →
      (fetch_current_weather scorer up apiKey t2 city lat lon
          (fetch_current_weather scorer up apiKey t1 city lat lon st).2).2.httpCalls
        = st.httpCalls + 1 ∧
      (fetch_current_weather scorer up apiKey t2 city lat lon
          (fetch_current_weather scorer up apiKey t1 city lat lon st).2).1
        = (fetch_current_weather scorer up apiKey t1 city lat lon st).1) ∧
    (∀ (up : List (String × PVal) → Option ForecastPayload)
       (apiKey : String) (now : ℕ) (city : Option String) (lat lon : Option ℚ)
       (st : FetchState ForecastResponse) (e : CacheEntry ForecastResponse),
      (pyTruthyStr city || (lat.isSome && lon.isSome)) = true →
      cacheLookup st.cache
        (build_cache_key "forecast" (fetch_forecast_params apiKey city lat lon))
        = some e →
      now - e.timestamp < 1800 →
      fetch_forecast up apiKey now city lat lon st = (.ok (some e.data), st)) ∧
    (∀ (up : List (String × PVal) → Option ForecastPayload)
       (apiKey : String) (t1 t2 : ℕ) (city : Option String) (lat lon : Option ℚ)
       (st : FetchState ForecastResponse) (d : ForecastPayload),
      (pyTruthyStr city || (lat.isSome && lon.isSome)) = true →
      noFreshEntry st.cache
        (build_cache_key "forecast" (fetch_forecast_params apiKey city lat lon))
        t1 1800 →
      up (fetch_forecast_params apiKey city lat lon) = some d →
      t2 - t1 < 1800 →
      (fetch_forecast up apiKey t2 city lat lon
          (fetch_forecast up apiKey t1 city lat lon st).2).2.httpCalls
        = st.httpCalls + 1 ∧
      (fetch_forecast up apiKey t2 city lat lon
          (fetch_forecast up apiKey t1 city lat lon st).2).1
        = (fetch_forecast up apiKey t1 city lat lon st).1) := by
  refine ⟨fetch_current_weather_hit, ?_, fetch_forecast_hit, ?_⟩
  · intro scorer up apiKey t1 t2 city lat lon st d hargs hnf hup hwin
    have h1 := fetch_current_weather_miss scorer up apiKey t1 city lat lon st hargs hnf
    have h1' : fetch_current_miss up (fetch_current_params scorer apiKey city lat lon)
        (build_cache_key "current" (fetch_current_params scorer apiKey city lat lon))
        t1 st
        = (.ok (some (normalizeCurrent d)),
           { cache := cacheInsert st.cache
               (build_cache_key "current" (fetch_current_params scorer apiKey city lat lon))
               ⟨t1, normalizeCurrent d⟩,
             httpCalls := st.httpCalls + 1 }) := by
      unfold fetch_current_miss
      rw [hup]
    rw [h1, h1']
    have h2 := fetch_current_weather_hit scorer up apiKey t2 city lat lon
      { cache := cacheInsert st.cache
          (build_cache_key "current" (fetch_current_params scorer apiKey city lat lon))
          ⟨t1, normalizeCurrent d⟩,
        httpCalls := st.httpCalls + 1 }
      ⟨t1, normalizeCurrent d⟩ hargs (cacheLookup_insert_self _ _ _) hwin
    rw [h2]
    exact ⟨rfl, rfl⟩
  · intro up apiKey t1 t2 city lat lon st d hargs hnf hup hwin
    have h1 := fetch_forecast_miss_eq up apiKey t1 city lat lon st hargs hnf
    have h1' : fetch_forecast_miss up (fetch_forecast_params apiKey city lat lon)
        (build_cache_key "forecast" (fetch_forecast_params apiKey city lat lon))
        t1 st
        = (.ok (some (normalizeForecast d)),
           { cache := cacheInsert st.cache
               (build_cache_key "forecast" (fetch_forecast_params apiKey city lat lon))
               ⟨t1, normalizeForecast d⟩,
             httpCalls := st.httpCalls + 1 }) := by
      unfold fetch_forecast_miss
      rw [hup]
    rw [h1, h1']
    have h2 := fetch_forecast_hit up apiKey t2 city lat lon
      { cache := cacheInsert st.cache
          (build_cache_key "forecast" (fetch_forecast_params apiKey city lat lon))
          ⟨t1, normalizeForecast d⟩,
        httpCalls := st.httpCalls + 1 }
      ⟨t1, normalizeForecast d⟩ hargs (cacheLookup_insert_self _ _ _) hwin
    rw [h2]
    exact ⟨rfl, rfl⟩

/-- Witness for C2: a fresh entry inserted at clock 5 is returned unchanged
at clock 10, and a miss-then-hit pair on an empty cache counts one upstream
call. -/
theorem C2_cache_ttl_witness :
    (pyTruthyStr (some "Seoul") || ((none : Option ℚ).isSome &&
      (none : Option ℚ).isSome)) = true ∧
    (10 : ℕ) - 5 < 600 ∧
    fetch_current_weather scorer0 up0 "k" 10 (some "Seoul") none none stHit
      = (.ok (some w0), stHit) ∧
    (fetch_forecast upF0 "k" 7 (some "Seoul") none none
        (fetch_forecast upF0 "k" 3 (some "Seoul") none none stEmptyF).2).2.httpCalls
      = stEmptyF.httpCalls + 1 :=
  ⟨by decide, by decide,
   C2_cache_ttl_single_upstream_call.1 scorer0 up0 "k" 10 (some "Seoul")
     none none stHit ⟨5, w0⟩ (by decide)
     (by unfold stHit; exact cacheLookup_insert_self [] _ _) (by decide),
   (C2_cache_ttl_single_upstream_call.2.2.2 upF0 "k" 3 7 (some "Seoul")
     none none stEmptyF fcPayload0 (by decide)
     (by intro e he; simp [stEmptyF, cacheLookup] at he) rfl (by decide)).1⟩

/-- Claim C8: with neither a truthy city nor a complete (lat, lon) pair,
both fetchers fail with the `ValueError` InvalidInput case and leave the
state — in particular the upstream HTTP-call counter — untouched, so no
upstream request is made. -/
theorem C8_requires_city_or_coords
    (scorer : String → String → ℚ)
    (upC : List (String × PVal) → Option CurrentPayload)
    (upF : List (String × PVal) → Option ForecastPayload)
    (apiKey : String) (now : ℕ) (city : Option String) (lat lon : Option ℚ)
    (stC : FetchState WeatherCurrent) (stF : FetchState ForecastResponse)
    (hc : pyTruthyStr city = false)
    (hll : (lat.isSome && lon.isSome) = false) :
    fetch_current_weather scorer upC apiKey now city lat lon stC
      = (.error .invalidInput, stC) ∧
    fetch_forecast upF apiKey now city lat lon stF
      = (.error .invalidInput, stF) := by
  constructor
  · unfold fetch_current_weather
    simp [hc, hll]
  · unfold fetch_forecast
    simp [hc, hll]

/-- Witness for C8: a lone longitude without latitude and without a city (an
inconsistent combination) is rejected before any upstream call. -/
theorem C8_requires_city_or_coords_witness :
    pyTruthyStr (none : Option String) = false ∧
    (((none : Option ℚ).isSome && ((some 5 : Option ℚ)).isSome)) = false ∧
    fetch_current_weather scorer0 up0 "k" 0 none none (some 5) stEmpty
      = (.error .invalidInput, stEmpty) ∧
    fetch_forecast upF0 "k" 0 none none (some 5) stEmptyF
      = (.error .invalidInput, stEmptyF) :=
  ⟨rfl, rfl,
   (C8_requires_city_or_coords scorer0 up0 upF0 "k" 0 none none (some 5)
     stEmpty stEmptyF rfl rfl).1,
   (C8_requires_city_or_coords scorer0 up0 upF0 "k" 0 none none (some 5)
     stEmpty stEmptyF rfl rfl).2⟩

/-- Claim C3: against any store state satisfying the coordinate-uniqueness
invariant for the pair in question, running `find_or_create` twice in
sequence with identical (lat, lon) yields the same Location id from both
executions, and exactly one row with that coordinate pair exists
afterwards. -/
theorem C3_find_or_create_idempotent (db : LocDB) (g : GeoResult)
    (huniq : db.rows.countP (locMatches g.lat g.lon) ≤ 1) :
    (find_or_create (find_or_create db g).2 g).1.id = (find_or_create db g).1.id ∧
    (find_or_create (find_or_create db g).2 g).2.rows.countP
      (locMatches g.lat g.lon) = 1 := by
  cases hf : db.rows.find? (locMatches g.lat g.lon) with
  | some r =>
    have h1 : find_or_create db g = (r, db) := by
      unfold find_or_create
      rw [hf]
    rw [h1]
    dsimp only
    rw [h1]
    dsimp only
    refine ⟨rfl, ?_⟩
    have hpos : 0 < db.rows.countP (locMatches g.lat g.lon) :=
      List.countP_pos_iff.mpr ⟨r, List.mem_of_find?_eq_some hf, List.find?_some hf⟩
    omega
  | none =>
    have hrow : locMatches g.lat g.lon
        { id := db.nextId, city := g.name, state := g.state, country := g.country,
          postal_code := none, latitude := g.lat, longitude := g.lon,
          external_id := g.external_id } = true := by
      simp [locMatches]
    have h1 : find_or_create db g =
        ({ id := db.nextId, city := g.name, state := g.state, country := g.country,
           postal_code := none, latitude := g.lat, longitude := g.lon,
           external_id := g.external_id },
         { rows := db.rows ++
             [{ id := db.nextId, city := g.name, state := g.state,
                country := g.country, postal_code := none, latitude := g.lat,
                longitude := g.lon, external_id := g.external_id }],
           nextId := db.nextId + 1 }) := by
      unfold find_or_create
      rw [hf]
    have hfind2 : (db.rows ++
        [({ id := db.nextId, city := g.name, state := g.state, country := g.country,
            postal_code := none, latitude := g.lat, longitude := g.lon,
            external_id := g.external_id } : LocRow)]).find? (locMatches g.lat g.lon)
        = some { id := db.nextId, city := g.name, state := g.state,
                 country := g.country, postal_code := none, latitude := g.lat,
                 longitude := g.lon, external_id := g.external_id } := by
      rw [List.find?_append, hf]
      simp [hrow]
    have h2 : find_or_create
        { rows := db.rows ++
            [({ id := db.nextId, city := g.name, state := g.state,
                country := g.country, postal_code := none, latitude := g.lat,
                longitude := g.lon, external_id := g.external_id } : LocRow)],
          nextId := db.nextId + 1 } g =
        ({ id := db.nextId, city := g.name, state := g.state, country := g.country,
           postal_code := none, latitude := g.lat, longitude := g.lon,
           external_id := g.external_id },
         { rows := db.rows ++
             [{ id := db.nextId, city := g.name, state := g.state,
                country := g.country, postal_code := none, latitude := g.lat,
                longitude := g.lon, external_id := g.external_id }],
           nextId := db.nextId + 1 }) := by
      unfold find_or_create
      rw [hfind2]
    rw [h1]
    dsimp only
    rw [h2]
    dsimp only
    refine ⟨rfl, ?_⟩
    have hzero : db.rows.countP (locMatches g.lat g.lon) = 0 :=
      List.countP_eq_zero.mpr (List.find?_eq_none.mp hf)
    rw [List.countP_append, hzero]
    simp [hrow]

/-- Witness for C3 on an empty store. -/
theorem C3_find_or_create_idempotent_witness :
    (LocDB.mk [] 0).rows.countP (locMatches geoSeoul.lat geoSeoul.lon) ≤ 1 ∧
    (find_or_create (find_or_create (LocDB.mk [] 0) geoSeoul).2 geoSeoul).1.id
      = (find_or_create (LocDB.mk [] 0) geoSeoul).1.id ∧
    (find_or_create (find_or_create (LocDB.mk [] 0) geoSeoul).2 geoSeoul).2.rows.countP
      (locMatches geoSeoul.lat geoSeoul.lon) = 1 :=
  ⟨by decide,
   (C3_find_or_create_idempotent (LocDB.mk [] 0) geoSeoul (by decide)).1,
   (C3_find_or_create_idempotent (LocDB.mk [] 0) geoSeoul (by decide)).2⟩

/-- Claim C4: for an otherwise-valid record-creation request, the endpoint
rejects `temp_c = 100.1` with the InvalidInput temperature error (nothing is
persisted: the error branch returns before `create_weather_record` runs),
while `temp_c = 100.0` passes validation and yields a persisted record with
the generated id `db.nextId`. -/
theorem C4_temperature_boundary (now : ℤ) (db : WeatherDB)
    (data : WeatherHistoryCreate)
    (hdate : ¬ data.weather_date > now + 7 * 86400)
    (hhum : humidityBad data.humidity = false)
    (hwind : windSpeedBad data.wind_speed = false) :
    create_weather_record_endpoint now db { data with temp_c := 100.1 }
      = .error .invalidTemperature ∧
    create_weather_record_endpoint now db { data with temp_c := 100 }
      = .ok ({ id := db.nextId, fields := { data with temp_c := 100 } },
             { rows := db.rows ++
                 [{ id := db.nextId, fields := { data with temp_c := 100 } }],
               nextId := db.nextId + 1 }) := by
  constructor
  · unfold create_weather_record_endpoint
    dsimp only
    rw [if_neg hdate]
    rw [if_pos (Or.inr (by norm_num : (100.1 : ℚ) > 100))]
  · unfold create_weather_record_endpoint
    dsimp only
    rw [if_neg hdate]
    rw [if_neg (by norm_num : ¬ ((100 : ℚ) < -100 ∨ (100 : ℚ) > 100))]
    rw [if_neg (by simp [hhum]), if_neg (by simp [hwind])]
    rfl

/-- Witness for C4 at a neutral valid request. -/
theorem C4_temperature_boundary_witness :
    ¬ wrData0.weather_date > 0 + 7 * 86400 ∧
    humidityBad wrData0.humidity = false ∧
    windSpeedBad wrData0.wind_speed = false ∧
    create_weather_record_endpoint 0 (WeatherDB.mk [] 0)
        { wrData0 with temp_c := 100.1 } = .error .invalidTemperature ∧
    create_weather_record_endpoint 0 (WeatherDB.mk [] 0)
        { wrData0 with temp_c := 100 }
      = .ok ({ id := 0, fields := { wrData0 with temp_c := 100 } },
             { rows := [{ id := 0, fields := { wrData0 with temp_c := 100 } }],
               nextId := 1 }) :=
  ⟨by decide, rfl, rfl,
   (C4_temperature_boundary 0 (WeatherDB.mk [] 0) wrData0 (by decide) rfl rfl).1,
   (C4_temperature_boundary 0 (WeatherDB.mk [] 0) wrData0 (by decide) rfl rfl).2⟩

/-- Counterexample to claim C5 as stated: on a payload with no rain/snow
field, the record produced by `fetch_current_weather` carries
`precipitation = None` (unset), not the claimed canonical value zero. -/
theorem C5_counterexample_current_precipitation :
    payload0.rain = none ∧ payload0.snow = none ∧
    (fetch_current_weather scorer0 up0 "k" 0 (some "Seoul") none none stEmpty).1
      = .ok (some (normalizeCurrent payload0)) ∧
    (normalizeCurrent payload0).precipitation = none ∧
    (normalizeCurrent payload0).precipitation ≠ some 0 := by
  refine ⟨rfl, rfl, rfl, rfl, ?_⟩
  show (none : Option ℚ) ≠ some 0
  simp

/-- Claim C5 (amended): for payloads with the precipitation field absent,
the forecast normalization yields `precipitation = 0` with
`precipitation_type` unset, while the current-weather normalization leaves
`precipitation` itself unset (`None`) as well — for every payload, not only
the precipitation-free ones.  The third and fourth conjuncts tie the
normalizations to the fetch operations on a cache miss. -/
theorem C5_amended_precipitation :
    (∀ it : ForecastItemPayload, it.rain = none →
      (normalizeForecastItem it).precipitation = some 0 ∧
      (normalizeForecastItem it).precipitation_type = none) ∧
    (∀ p : CurrentPayload,
      (normalizeCurrent p).precipitation = none ∧
      (normalizeCurrent p).precipitation_type = none) ∧
    (∀ (up : List (String × PVal) → Option ForecastPayload)
       (apiKey : String) (now : ℕ) (city : Option String) (lat lon : Option ℚ)
       (st : FetchState ForecastResponse) (d : ForecastPayload),
      (pyTruthyStr city || (lat.isSome && lon.isSome)) = true →
      noFreshEntry st.cache
        (build_cache_key "forecast" (fetch_forecast_params apiKey city lat lon))
        now 1800 →
      up (fetch_forecast_params apiKey city lat lon) = some d →
      (fetch_forecast up apiKey now city lat lon st).1
        = .ok (some (normalizeForecast d)) ∧
      (normalizeForecast d).forecast = d.list.map normalizeForecastItem) ∧
    (∀ (scorer : String → String → ℚ)
       (up : List (String × PVal) → Option CurrentPayload)
       (apiKey : String) (now : ℕ) (city : Option String) (lat lon : Option ℚ)
       (st : FetchState WeatherCurrent) (d : CurrentPayload),
      (pyTruthyStr city || (lat.isSome && lon.isSome)) = true →
      noFreshEntry st.cache
        (build_cache_key "current" (fetch_current_params scorer apiKey city lat lon))
        now 600 →
      up (fetch_current_params scorer apiKey city lat lon) = some d →
      (fetch_current_weather scorer up apiKey now city lat lon st).1
        = .ok (some (normalizeCurrent d))) := by
  refine ⟨?_, fun p => ⟨rfl, rfl⟩, ?_, ?_⟩
  · intro it h
    constructor
    · simp [normalizeForecastItem, h]
    · simp [normalizeForecastItem, h]
  · intro up apiKey now city lat lon st d hargs hnf hup
    refine ⟨?_, rfl⟩
    rw [fetch_forecast_miss_eq up apiKey now city lat lon st hargs hnf]
    unfold fetch_forecast_miss
    rw [hup]
  · intro scorer up apiKey now city lat lon st d hargs hnf hup
    rw [fetch_current_weather_miss scorer up apiKey now city lat lon st hargs hnf]
    unfold fetch_current_miss
    rw [hup]

/-- Witness for amended C5 at a rain-free forecast entry. -/
theorem C5_amended_precipitation_witness :
    fcItem0.rain = none ∧
    (normalizeForecastItem fcItem0).precipitation = some 0 ∧
    (normalizeForecastItem fcItem0).precipitation_type = none :=
  ⟨rfl, (C5_amended_precipitation.1 fcItem0 rfl).1,
   (C5_amended_precipitation.1 fcItem0 rfl).2⟩

/-- Counterexample to claim C6 as stated: the service layer stores the
upstream Celsius value untouched, so a payload with temperature 20.55
produces a record whose `temp_c` has two decimal places — no rounding to one
decimal place happens. -/
theorem C6_counterexample_no_rounding :
    (fetch_current_weather scorer0 up655 "k" 0 (some "Seoul") none none stEmpty).1
      = .ok (some (normalizeCurrent payload655)) ∧
    (normalizeCurrent payload655).temp_c = 20.55 ∧
    ¬ roundedTo1 ((normalizeCurrent payload655).temp_c) := by
  refine ⟨rfl, rfl, ?_⟩
  have htc : (normalizeCurrent payload655).temp_c = (20.55 : ℚ) := rfl
  rw [htc]
  rintro ⟨n, hn⟩
  have h2 : ((2 * n : ℤ) : ℚ) = 411 := by
    push_cast
    rw [← hn]
    norm_num
  have h3 : (2 * n : ℤ) = 411 := by exact_mod_cast h2
  omega

/-- Claim C6 (amended): for every record the service layer normalizes from
an upstream payload with Celsius temperature C, the stored Fahrenheit value
equals `C * 9/5 + 32` exactly, and both temperatures are stored as computed,
with no rounding applied (1-decimal rounding exists only in the separate
`src/api/weather.py` handler, not in this path). -/
theorem C6_amended_fahrenheit_formula :
    (∀ (p : CurrentPayload) (c : ℚ), p.main.temp = some c →
      (normalizeCurrent p).temp_c = c ∧
      (normalizeCurrent p).temp_f = c * 9 / 5 + 32) ∧
    (∀ (it : ForecastItemPayload) (c : ℚ), it.main.temp = some c →
      (normalizeForecastItem it).temp_c = c ∧
      (normalizeForecastItem it).temp_f = c * 9 / 5 + 32) := by
  constructor
  · intro p c h
    constructor
    · show p.main.temp.getD 0 = c
      rw [h]
      rfl
    · show pyOrZero (c_to_f p.main.temp) = c * 9 / 5 + 32
      rw [h]
      show (if c * 9 / 5 + 32 = 0 then 0 else c * 9 / 5 + 32) = c * 9 / 5 + 32
      split_ifs with h0
      · exact h0.symm
      · rfl
  · intro it c h
    constructor
    · show it.main.temp.getD 0 = c
      rw [h]
      rfl
    · show pyOrZero (c_to_f it.main.temp) = c * 9 / 5 + 32
      rw [h]
      show (if c * 9 / 5 + 32 = 0 then 0 else c * 9 / 5 + 32) = c * 9 / 5 + 32
      split_ifs with h0
      · exact h0.symm
      · rfl

/-- Witness for amended C6 at the 20.55-degree payload. -/
theorem C6_amended_fahrenheit_formula_witness :
    payload655.main.temp = some 20.55 ∧
    (normalizeCurrent payload655).temp_c = 20.55 ∧
    (normalizeCurrent payload655).temp_f = 20.55 * 9 / 5 + 32 :=
  ⟨rfl, (C6_amended_fahrenheit_formula.1 payload655 20.55 rfl).1,
   (C6_amended_fahrenheit_formula.1 payload655 20.55 rfl).2⟩

/-- Claim C7: the geocoder failure taxonomy is exhaustive and distinguishes
the two cases — an empty 2xx result array fails with the NotFound error, any
4xx/5xx status (the non-2xx statuses `raise_for_status` reports) or
transport failure fails with the distinct UpstreamUnavailable error, and the
`/weather` route maps the two errors to distinct HTTP statuses (400 vs
502); every outcome yields exactly one of NotFound, UpstreamUnavailable, or
success. -/
theorem C7_geocoder_error_taxonomy :
    (∀ (status : ℕ) (body : List GeoCandidate), 400 ≤ status →
      geocode_location (.response status body) = .error .upstreamUnavailable) ∧
    geocode_location (.transportFailure) = .error .upstreamUnavailable ∧
    (∀ status : ℕ, status < 400 →
      geocode_location (.response status []) = .error .notFound) ∧
    GeoError.notFound ≠ GeoError.upstreamUnavailable ∧
    geoErrorStatus .notFound ≠ geoErrorStatus .upstreamUnavailable ∧
    (∀ resp : HttpOutcome (List GeoCandidate),
      geocode_location resp = .error .notFound ∨
      geocode_location resp = .error .upstreamUnavailable ∨
      ∃ p, geocode_location resp = .ok p) := by
  refine ⟨?_, rfl, ?_, by decide, by decide, ?_⟩
  · intro s b h
    show (if 400 ≤ s then Except.error GeoError.upstreamUnavailable
      else match b with
        | [] => Except.error GeoError.notFound
        | c :: _ => Except.ok (c.lat, c.lon)) = .error .upstreamUnavailable
    rw [if_pos h]
  · intro s h
    show (if 400 ≤ s then Except.error GeoError.upstreamUnavailable
      else match ([] : List GeoCandidate) with
        | [] => Except.error GeoError.notFound
        | c :: _ => Except.ok (c.lat, c.lon)) = .error .notFound
    rw [if_neg (not_le.mpr h)]
  · intro resp
    cases resp with
    | transportFailure => exact Or.inr (Or.inl rfl)
    | response s b =>
      have hresp : geocode_location (.response s b)
          = if 400 ≤ s then Except.error GeoError.upstreamUnavailable
            else match b with
              | [] => Except.error GeoError.notFound
              | c :: _ => Except.ok (c.lat, c.lon) := rfl
      rw [hresp]
      by_cases h : 400 ≤ s
      · rw [if_pos h]
        exact Or.inr (Or.inl rfl)
      · rw [if_neg h]
        cases b with
        | nil => exact Or.inl rfl
        | cons c rest => exact Or.inr (Or.inr ⟨(c.lat, c.lon), rfl⟩)

/-- Witness for C7: the NoSuchPlace scenario (empty 2xx array) and a 404
status. -/
theorem C7_geocoder_error_taxonomy_witness :
    (400 : ℕ) ≤ 404 ∧ (200 : ℕ) < 400 ∧
    geocode_location (.response 404 ([] : List GeoCandidate))
      = .error .upstreamUnavailable ∧
    geocode_location (.response 200 ([] : List GeoCandidate))
      = .error .notFound :=
  ⟨by decide, by decide,
   C7_geocoder_error_taxonomy.1 404 [] (by decide),
   C7_geocoder_error_taxonomy.2.2.1 200 (by decide)⟩

/-- Claim C9: `by_location` returns exactly the stored records of the given
location whose `weather_date` lies within the optional range, both bounds
inclusive (a permutation of the filtered table), and the result is ordered
by `weather_date` (descending, per the `order_by(...desc())`). -/
theorem C9_by_location_inclusive_range_ordered (db : WeatherDB) (locId : ℤ)
    (s e : Option ℤ) :
    (get_weather_by_location db locId s e).Perm
      (db.rows.filter (fun r => decide (r.fields.location_id = locId) &&
        inDateRange s e r.fields.weather_date)) ∧
    List.Sorted dateGE (get_weather_by_location db locId s e) := by
  constructor
  · unfold get_weather_by_location
    cases s with
    | none =>
      cases e with
      | none =>
        dsimp only
        refine (List.perm_insertionSort dateGE _).trans ?_
        have hpt : ∀ a ∈ db.rows, decide (a.fields.location_id = locId)
            = (decide (a.fields.location_id = locId) &&
               inDateRange none none a.fields.weather_date) := by
          intro a _
          simp [inDateRange]
        rw [List.filter_congr hpt]
      | some ed =>
        dsimp only
        refine (List.perm_insertionSort dateGE _).trans ?_
        rw [List.filter_filter]
        have hpt : ∀ a ∈ db.rows,
            (decide (a.fields.weather_date ≤ ed) &&
             decide (a.fields.location_id = locId))
            = (decide (a.fields.location_id = locId) &&
               inDateRange none (some ed) a.fields.weather_date) := by
          intro a _
          simp [inDateRange, Bool.and_comm]
        rw [List.filter_congr hpt]
    | some sd =>
      cases e with
      | none =>
        dsimp only
        refine (List.perm_insertionSort dateGE _).trans ?_
        rw [List.filter_filter]
        have hpt : ∀ a ∈ db.rows,
            (decide (sd ≤ a.fields.weather_date) &&
             decide (a.fields.location_id = locId))
            = (decide (a.fields.location_id = locId) &&
               inDateRange (some sd) none a.fields.weather_date) := by
          intro a _
          simp [inDateRange, Bool.and_comm]
        rw [List.filter_congr hpt]
      | some ed =>
        dsimp only
        refine (List.perm_insertionSort dateGE _).trans ?_
        rw [List.filter_filter, List.filter_filter]
        have hpt : ∀ a ∈ db.rows,
            (decide (a.fields.weather_date ≤ ed) &&
             decide (sd ≤ a.fields.weather_date) &&
             decide (a.fields.location_id = locId))
            = (decide (a.fields.location_id = locId) &&
               inDateRange (some sd) (some ed) a.fields.weather_date) := by
          intro a _
          simp [inDateRange, Bool.and_comm, Bool.and_left_comm, Bool.and_assoc]
        rw [List.filter_congr hpt]
  · unfold get_weather_by_location
    cases s <;> cases e <;>
      exact List.sorted_insertionSort dateGE _

/-- Claim C10: `fetch_current_weather` rewrites its city argument through
the fuzzy matcher against the fixed known-city list (replacing it with the
best-scoring known city when the score exceeds 80) before building its
upstream query parameters — and hence its cache key, which is a function of
those parameters — while `fetch_forecast` passes the same city through
unchanged; so whenever the fuzzy rewrite fires on a non-identical best
match, the two operations build different upstream queries for the same raw
city string. -/
theorem C10_fuzzy_city_rewrite_asymmetry :
    (∀ (scorer : String → String → ℚ) (apiKey : String) (city : String),
      pyTruthyStr (some city) = true →
      fetch_current_params scorer apiKey (some city) none none
        = [("appid", .str apiKey), ("units", .str "metric"),
           ("q", .str (normalize_city_name scorer city))] ∧
      fetch_forecast_params apiKey (some city) none none
        = [("appid", .str apiKey), ("units", .str "metric"),
           ("q", .str city)]) ∧
    (∀ (scorer : String → String → ℚ) (apiKey : String) (city m : String)
       (sc : ℚ),
      pyTruthyStr (some city) = true →
      extractOne scorer city KNOWN_CITIES = some (m, sc) →
      sc > 80 → m ≠ city →
      normalize_city_name scorer city = m ∧
      fetch_current_params scorer apiKey (some city) none none
        ≠ fetch_forecast_params apiKey (some city) none none) := by
  constructor
  · intro scorer apiKey city h
    constructor
    · simp [fetch_current_params, h]
    · simp [fetch_forecast_params, h]
  · intro scorer apiKey city m sc h hex hsc hne
    have hnorm : normalize_city_name scorer city = m := by
      unfold normalize_city_name
      rw [hex]
      show (if sc > 80 then m else city) = m
      rw [if_pos hsc]
    refine ⟨hnorm, ?_⟩
    intro heq
    apply hne
    simp [fetch_current_params, fetch_forecast_params, h, hnorm] at heq
    exact heq

/-- Witness for C10: a misspelling near "Seoul" under a scorer of the shape
rapidfuzz exhibits on that input. -/
theorem C10_fuzzy_city_rewrite_asymmetry_witness :
    pyTruthyStr (some "Seol") = true ∧
    extractOne scorerSeoul "Seol" KNOWN_CITIES = some ("Seoul", 90) ∧
    (90 : ℚ) > 80 ∧ ("Seoul" : String) ≠ "Seol" ∧
    normalize_city_name scorerSeoul "Seol" = "Seoul" ∧
    fetch_current_params scorerSeoul "k" (some "Seol") none none
      ≠ fetch_forecast_params "k" (some "Seol") none none :=
  ⟨by decide, by decide, by decide, by decide,
   (C10_fuzzy_city_rewrite_asymmetry.2 scorerSeoul "k" "Seol" "Seoul" 90
     (by decide) (by decide) (by decide) (by decide)).1,
   (C10_fuzzy_city_rewrite_asymmetry.2 scorerSeoul "k" "Seol" "Seoul" 90
     (by decide) (by decide) (by decide) (by decide)).2⟩

end WeatherApp
